import Mathlib

/-
Shallow embedding of src/jni/uvccap.c (UVCCapture): the V4L2 capture
pipeline — device open and capability negotiation, format negotiation,
buffer-pool allocation with memory mapping, the capture loop, and
teardown.  Kernel ioctl behaviour is modelled by explicit oracles
(functions from request data to `Except Errno` results); the C functions
become pure Lean functions over those oracles, returning the error code
of the C `enum ERRORS` together with the state or effect trace the C
code produces.
-/

namespace UVCCap

/-- Platform errno values distinguished by uvccap.c.  `EOTHER` stands for
any errno the code does not branch on specifically. -/
inductive Errno
  | EINVAL
  | EBUSY
  | EIO
  | ENOMEM
  | EAGAIN
  | EPERM
  | ETIMEDOUT
  | EOTHER
deriving DecidableEq, Repr

/-- The `enum ERRORS` of uvccap.c (lines 72-93), name for name. -/
inductive ERRORS
  | NOERROR
  | INVALID_ARGUMENTS
  | INVALID_FORMAT_ARGUMENTS
  | VIDEO_DEVICE_BUSY
  | VIDEO_DEVICE_OPEN_FAILED
  | VIDEO_DEVICE_NOCAPS
  | VIDEO_DEVICE_NOCROPCAPS
  | VIDEO_DEVICE_CAPTURE_NOT_SUPPORTED
  | VIDEO_DEVICE_CROPPING_FAILED
  | VIDEO_DEVICE_ENUM_FORMAT_FAILED
  | VIDEO_DEVICE_QUERY_BUFFER_FAILED
  | VIDEO_DEVICE_STREAMING_FAILED
  | IO_METHOD_NOT_SUPPORTED
  | IO_ERROR
  | IO_FILE_NOT_CREATED
  | MEMORY_MAPPING_FAILED
  | MEMORY_QUEUEING_FAILED
  | MEMORY_DEQUEUEING_FAILED
  | INSUFFICIENT_MEMORY
  | NOT_PERMITTED
deriving DecidableEq, Repr

/-- The v4l2_fourcc macro: pack four characters into a 32-bit code. -/
def v4l2_fourcc (a b c d : Char) : Nat :=
  a.toNat + b.toNat * 256 + c.toNat * 65536 + d.toNat * 16777216

def V4L2_PIX_FMT_RGB565 : Nat := v4l2_fourcc 'R' 'G' 'B' 'P'
def V4L2_PIX_FMT_RGB32 : Nat := v4l2_fourcc 'R' 'G' 'B' '4'
def V4L2_PIX_FMT_BGR32 : Nat := v4l2_fourcc 'B' 'G' 'R' '4'
def V4L2_PIX_FMT_YUYV : Nat := v4l2_fourcc 'Y' 'U' 'Y' 'V'
def V4L2_PIX_FMT_UYVY : Nat := v4l2_fourcc 'U' 'Y' 'V' 'Y'
def V4L2_PIX_FMT_YUV420 : Nat := v4l2_fourcc 'Y' 'U' '1' '2'
def V4L2_PIX_FMT_YUV410 : Nat := v4l2_fourcc 'Y' 'U' 'V' '9'
def V4L2_PIX_FMT_YUV422P : Nat := v4l2_fourcc '4' '2' '2' 'P'

def V4L2_CAP_VIDEO_CAPTURE : Nat := 1
def V4L2_FIELD_INTERLACED : Nat := 4

def NUMBER_OF_SUPPORTED_PIXEL_FORMATS : Nat := 8
def DEF_PIXEL_FORMAT : Nat := 3

/-- The static table `PIXEL_FORMATS` (uvccap.c lines 30-40): the 8
supported four-byte codes followed by the 0 sentinel, 9 array elements
in total. -/
def PIXEL_FORMATS : List Nat :=
  [V4L2_PIX_FMT_RGB565, V4L2_PIX_FMT_RGB32, V4L2_PIX_FMT_BGR32,
   V4L2_PIX_FMT_YUYV, V4L2_PIX_FMT_UYVY, V4L2_PIX_FMT_YUV420,
   V4L2_PIX_FMT_YUV410, V4L2_PIX_FMT_YUV422P, 0]

/-- Guarded embedding of a C array access `l[i]` with an `int` index:
`none` exactly when the access is out of the array's bounds (negative
index or index at or beyond the length), which in C is undefined
behaviour. -/
def listAt (l : List Nat) (i : Int) : Option Nat :=
  if i < 0 then none else l[i.toNat]?

/-- `to_v4l2_pixel_format` (uvccap.c lines 510-515): indices at or above
`NUMBER_OF_SUPPORTED_PIXEL_FORMATS` fall back to the entry at
`DEF_PIXEL_FORMAT`; every other index goes straight to the unguarded
table access `PIXEL_FORMATS[format]`. -/
def to_v4l2_pixel_format (format : Int) : Option Nat :=
  if (NUMBER_OF_SUPPORTED_PIXEL_FORMATS : Int) ≤ format then
    listAt PIXEL_FORMATS (DEF_PIXEL_FORMAT : Int)
  else
    listAt PIXEL_FORMATS format

/-- The `-f` branch of `parse_args` (uvccap.c lines 151-157): the parsed
format index is rejected (`none`, the C function returns -1) only when it
is at or above `NUMBER_OF_SUPPORTED_PIXEL_FORMATS`; every smaller value,
negative values included, is accepted unchanged. -/
def parse_format_arg (f : Int) : Option Int :=
  if (NUMBER_OF_SUPPORTED_PIXEL_FORMATS : Int) ≤ f then none else some f

/-- A mapped-region address as the C code distinguishes it: the
`MAP_FAILED` sentinel, the null pointer, or a real address. -/
inductive addr_t
  | MAP_FAILED
  | NULLPTR
  | ptr (a : Nat)
deriving DecidableEq, Repr

/-- `video_buf_t` (uvccap.c lines 57-60): one buffer's mapping address
and byte size. -/
structure video_buf_t where
  addr : addr_t
  size : Nat
deriving DecidableEq, Repr

/-- The fields of `video_dev_t` (uvccap.c lines 62-70) that
`close_video_device` reads: the descriptor, the buffer array (`none`
models the NULL pointer) and the tracked buffer count. -/
structure video_dev_t where
  fd : Int
  buffers : Option (List video_buf_t)
  buffer_count : Nat
deriving DecidableEq, Repr

/-- Observable teardown actions of `close_video_device`. -/
inductive Effect
  | Munmap (a : Nat) (size : Nat)
  | FreeBuffers
  | CloseFd (fd : Int)
deriving DecidableEq, Repr

/-- The unmap scan of `close_video_device` (uvccap.c lines 388-393):
walk the buffer array in order, stopping at the first entry whose
address is `MAP_FAILED`, unmapping every entry before it.  A NULL
address does not stop the scan (only `MAP_FAILED` does); `munmap(NULL)`
is recorded as `Munmap 0`. -/
def unmap_scan : List video_buf_t → List Effect
  | [] => []
  | b :: rest =>
    match b.addr with
    | addr_t.MAP_FAILED => []
    | addr_t.NULLPTR => Effect.Munmap 0 b.size :: unmap_scan rest
    | addr_t.ptr a => Effect.Munmap a b.size :: unmap_scan rest

/-- `close_video_device` (uvccap.c lines 376-401).  The C function takes
`video_dev_t const *`: it can only read the session, never mark it
closed, so its entire behaviour is the effect trace returned here and
the session value is unchanged by a call.  A NULL session or a negative
descriptor yields no effects; otherwise the buffer array (when present)
is scanned and freed and the descriptor is closed (the C retry loop
around `close` collapses to one `CloseFd` effect). -/
def close_video_device (dev : Option video_dev_t) : List Effect :=
  match dev with
  | none => []
  | some d =>
    if d.fd < 0 then []
    else
      (match d.buffers with
       | none => []
       | some bufs => unmap_scan (bufs.take d.buffer_count) ++ [Effect.FreeBuffers])
      ++ [Effect.CloseFd d.fd]

/-- Kernel-side behaviour consumed by `init_buffer`: the REQBUFS result
(granted count on success), whether the application `malloc` succeeds,
the per-index QUERYBUF result (buffer byte length on success), and the
per-index mmap result. -/
structure BufferDevice where
  reqbufs : Except Errno Nat
  malloc_ok : Bool
  querybuf : Nat → Except Errno Nat
  mmap : Nat → Nat → addr_t

/-- The per-index loop of `init_buffer` (uvccap.c lines 556-583),
entered at index `i` with `remaining` indices left (`i + remaining`
equals the granted count) and `acc` the buffers mapped so far.  EINVAL
from QUERYBUF breaks out with the result still `NOERROR`; any other
QUERYBUF failure breaks with `VIDEO_DEVICE_QUERY_BUFFER_FAILED`; a
`MAP_FAILED` mmap result breaks with `MEMORY_MAPPING_FAILED`.  Returns
the result code, the mapped prefix, and the final loop index `i` (the
value stored into `dev->buffer_count` on success). -/
def ib_loop (dev : BufferDevice) (i remaining : Nat) (acc : List video_buf_t) :
    ERRORS × List video_buf_t × Nat :=
  match remaining with
  | 0 => (ERRORS.NOERROR, acc, i)
  | rem + 1 =>
    match dev.querybuf i with
    | Except.error e =>
      if e = Errno.EINVAL then (ERRORS.NOERROR, acc, i)
      else (ERRORS.VIDEO_DEVICE_QUERY_BUFFER_FAILED, acc, i)
    | Except.ok len =>
      match dev.mmap i len with
      | addr_t.MAP_FAILED => (ERRORS.MEMORY_MAPPING_FAILED, acc, i)
      | addr_t.NULLPTR => ib_loop dev (i + 1) rem (acc ++ [⟨addr_t.NULLPTR, len⟩])
      | addr_t.ptr a => ib_loop dev (i + 1) rem (acc ++ [⟨addr_t.ptr a, len⟩])

/-- `init_buffer` after the REQBUFS step (uvccap.c lines 543-600), with
`count` the granted buffer count: fewer than 2 granted buffers (or a
failed malloc) is `INSUFFICIENT_MEMORY`; otherwise the per-index loop
runs, and on a fatal loop result the mapped prefix is unmapped and freed
(buffers stay NULL), while on `NOERROR` — including the early EINVAL
stop — the mapped prefix becomes `dev->buffers` with `dev->buffer_count`
the final loop index. -/
def init_buffer_body (dev : BufferDevice) (count : Nat) :
    ERRORS × Option (List video_buf_t) × Nat :=
  if count < 2 then (ERRORS.INSUFFICIENT_MEMORY, none, 0)
  else if dev.malloc_ok = false then (ERRORS.INSUFFICIENT_MEMORY, none, 0)
  else
    let out := ib_loop dev 0 count []
    if out.1 = ERRORS.NOERROR then (ERRORS.NOERROR, some out.2.1, out.2.2)
    else (out.1, none, 0)

/-- `init_buffer` (uvccap.c lines 517-601).  REQBUFS failure with EBUSY
is `VIDEO_DEVICE_BUSY` and with EINVAL `IO_METHOD_NOT_SUPPORTED`; on any
other REQBUFS errno the C code falls through without returning, using
the request value 2 as the count.  On success the kernel-granted count
drives `init_buffer_body`. -/
def init_buffer (dev : BufferDevice) : ERRORS × Option (List video_buf_t) × Nat :=
  match dev.reqbufs with
  | Except.error e =>
    if e = Errno.EBUSY then (ERRORS.VIDEO_DEVICE_BUSY, none, 0)
    else if e = Errno.EINVAL then (ERRORS.IO_METHOD_NOT_SUPPORTED, none, 0)
    else init_buffer_body dev 2
  | Except.ok g => init_buffer_body dev g

/-- Number of live mappings in an `init_buffer` buffers result: entries
holding a real address. -/
def live_mappings : Option (List video_buf_t) → Nat
  | none => 0
  | some l => (l.filter (fun b => match b.addr with | addr_t.ptr _ => true | _ => false)).length

/-- The gate in `main` (uvccap.c lines 192-195): `do_capture` — the only
caller of `start_capture`, which is the only site issuing STREAMON — runs
exactly when `init_video_device` returned `NOERROR`. -/
def main_runs_capture (init_ret : ERRORS) : Bool :=
  init_ret = ERRORS.NOERROR

/-- Kernel-side behaviour consumed by `open_video_device`: the result of
opening the device path (descriptor on success), the QUERYCAP result
(capability bitmask on success), the CROPCAP result, and the per-index
ENUM_FMT result. -/
structure OpenDevice where
  open_res : Except Errno Int
  querycap : Except Errno Nat
  cropcap : Except Errno Unit
  enum_fmt : Nat → Except Errno Unit

/-- The pixel-format enumeration loop of `open_video_device` (uvccap.c
lines 358-371), from index `i` with explicit fuel (the C loop is
unbounded; `none` means the fuel ran out before the loop ended).  EINVAL
ends the enumeration normally; any other failure is
`VIDEO_DEVICE_ENUM_FORMAT_FAILED`. -/
def enum_formats_loop (f : Nat → Except Errno Unit) (i fuel : Nat) : Option ERRORS :=
  match fuel with
  | 0 => none
  | fu + 1 =>
    match f i with
    | Except.error e =>
      if e = Errno.EINVAL then some ERRORS.NOERROR
      else some ERRORS.VIDEO_DEVICE_ENUM_FORMAT_FAILED
    | Except.ok _ => enum_formats_loop f (i + 1) fu

/-- `open_video_device` (uvccap.c lines 310-374): open (EBUSY is
`VIDEO_DEVICE_BUSY`, EPERM `NOT_PERMITTED`, anything else
`VIDEO_DEVICE_OPEN_FAILED`), QUERYCAP (any failure is
`VIDEO_DEVICE_NOCAPS`), the capture-capability bit check, CROPCAP (any
failure, whatever the errno, is `VIDEO_DEVICE_NOCROPCAPS` — lines
352-355 do not inspect errno), then the format enumeration. -/
def open_video_device (d : OpenDevice) (fuel : Nat) : Option ERRORS :=
  match d.open_res with
  | Except.error e =>
    if e = Errno.EBUSY then some ERRORS.VIDEO_DEVICE_BUSY
    else if e = Errno.EPERM then some ERRORS.NOT_PERMITTED
    else some ERRORS.VIDEO_DEVICE_OPEN_FAILED
  | Except.ok _ =>
    match d.querycap with
    | Except.error _ => some ERRORS.VIDEO_DEVICE_NOCAPS
    | Except.ok caps =>
      if caps &&& V4L2_CAP_VIDEO_CAPTURE = 0 then
        some ERRORS.VIDEO_DEVICE_CAPTURE_NOT_SUPPORTED
      else
        match d.cropcap with
        | Except.error _ => some ERRORS.VIDEO_DEVICE_NOCROPCAPS
        | Except.ok _ => enum_formats_loop d.enum_fmt 0 fuel

/-- The `v4l2_pix_format` fields uvccap.c sets and reads: width, height,
four-byte pixel code, field order. -/
structure v4l2_pix_format where
  width : Nat
  height : Nat
  pixelformat : Nat
  field : Nat
deriving DecidableEq, Repr

/-- The `app_args_t` fields consumed by the capture core (the device
path, file name pieces and frame count feed only the excluded CLI and
file-writer collaborators). -/
structure app_args_t where
  cap_width : Int
  cap_height : Int
  pixel_format : Int
deriving DecidableEq, Repr

/-- Kernel-side behaviour consumed by `init_video_device`: the S_CROP
result, the S_FMT result (the struct the kernel writes back on success),
and the G_FMT result. -/
structure FormatDevice where
  s_crop : Except Errno Unit
  s_fmt : v4l2_pix_format → Except Errno v4l2_pix_format
  g_fmt : Except Errno v4l2_pix_format

/-- Truncation of a C `int` into a `__u32` field. -/
def toU32 (x : Int) : Nat := (x % (2 : Int) ^ 32).toNat

/-- The request struct built at uvccap.c lines 484-489: the caller's
width and height and the mapped pixel code, interlaced field order. -/
def request_format (args : app_args_t) (code : Nat) : v4l2_pix_format :=
  ⟨toU32 args.cap_width, toU32 args.cap_height, code, V4L2_FIELD_INTERLACED⟩

/-- The tail of `init_video_device` after S_FMT (uvccap.c lines
501-507): G_FMT is issued and its result — succeed or fail — is only
printed from a local struct and then dropped; `dev->format` stays `f`,
and the function returns `init_buffer`'s result. -/
def after_set_format (fdev : FormatDevice) (bd : BufferDevice) (f : v4l2_pix_format) :
    Option (ERRORS × Option v4l2_pix_format) :=
  let _gq := fdev.g_fmt
  some ((init_buffer bd).1, some f)

/-- `init_video_device` (uvccap.c lines 465-508).  S_CROP failure with
EINVAL is only logged; any other S_CROP failure is
`VIDEO_DEVICE_CROPPING_FAILED`.  The request format is built with
`to_v4l2_pixel_format` (an out-of-bounds table read there is undefined
behaviour, `none`).  S_FMT failure with EBUSY is `VIDEO_DEVICE_BUSY`,
with EINVAL `INVALID_FORMAT_ARGUMENTS`; any other S_FMT errno falls
through with the struct still holding the request.  On S_FMT success
`dev->format` holds the kernel's written-back negotiation.  The second
component of the result is the final `dev->format` (`none` when the
failure came before the format was assigned). -/
def init_video_device (args : app_args_t) (fdev : FormatDevice) (bd : BufferDevice) :
    Option (ERRORS × Option v4l2_pix_format) :=
  let cropFail : Option ERRORS :=
    match fdev.s_crop with
    | Except.error e =>
      if e = Errno.EINVAL then none else some ERRORS.VIDEO_DEVICE_CROPPING_FAILED
    | Except.ok _ => none
  match cropFail with
  | some err => some (err, none)
  | none =>
    match to_v4l2_pixel_format args.pixel_format with
    | none => none
    | some code =>
      let req := request_format args code
      match fdev.s_fmt req with
      | Except.error e =>
        if e = Errno.EBUSY then some (ERRORS.VIDEO_DEVICE_BUSY, some req)
        else if e = Errno.EINVAL then some (ERRORS.INVALID_FORMAT_ARGUMENTS, some req)
        else after_set_format fdev bd req
      | Except.ok negotiated => after_set_format fdev bd negotiated

/-- The per-buffer QBUF retry loop of `start_capture` (uvccap.c lines
614-646), with `q` giving the ioctl outcome of each attempt (`none` is
success), `retry` the current attempt number and `remaining` the
attempts left out of 5.  Success breaks with the current retry count;
EINVAL and any unlisted errno break with `MEMORY_QUEUEING_FAILED`; EIO
breaks with `IO_ERROR`; ENOMEM and EAGAIN sleep and go to the next
attempt.  Exhausting `remaining` leaves the result `NOERROR` with the
retry count at 5 for the caller's post-loop check. -/
def qbuf_attempts (q : Nat → Option Errno) (retry remaining : Nat) : ERRORS × Nat :=
  match remaining with
  | 0 => (ERRORS.NOERROR, retry)
  | rem + 1 =>
    match q retry with
    | none => (ERRORS.NOERROR, retry)
    | some e =>
      if e = Errno.EINVAL then (ERRORS.MEMORY_QUEUEING_FAILED, retry)
      else if e = Errno.EIO then (ERRORS.IO_ERROR, retry)
      else if e = Errno.ENOMEM ∨ e = Errno.EAGAIN then qbuf_attempts q (retry + 1) rem
      else (ERRORS.MEMORY_QUEUEING_FAILED, retry)

/-- One buffer's enqueue in `start_capture`, the retry loop followed by
the `retry >= 5` check of uvccap.c lines 648-651. -/
def qbuf_one_buffer (q : Nat → Option Errno) : ERRORS :=
  let p := qbuf_attempts q 0 5
  if p.1 = ERRORS.NOERROR ∧ 5 ≤ p.2 then ERRORS.MEMORY_QUEUEING_FAILED else p.1

/-- The outer buffer loop of `start_capture` (uvccap.c lines 613-656),
from buffer index `i` with `remaining` buffers left: the first failing
buffer's result aborts the loop. -/
def start_enqueue_loop (q : Nat → Nat → Option Errno) (i remaining : Nat) : ERRORS :=
  match remaining with
  | 0 => ERRORS.NOERROR
  | rem + 1 =>
    let r := qbuf_one_buffer (q i)
    if r = ERRORS.NOERROR then start_enqueue_loop q (i + 1) rem else r

/-- `start_capture` (uvccap.c lines 603-670): enqueue every buffer, then
STREAMON (`streamon = none` is success; a failure is
`VIDEO_DEVICE_STREAMING_FAILED`).  `q i r` is the QBUF outcome of
attempt `r` on buffer `i`. -/
def start_capture (buffer_count : Nat) (q : Nat → Nat → Option Errno)
    (streamon : Option Errno) : ERRORS :=
  let r := start_enqueue_loop q 0 buffer_count
  if r = ERRORS.NOERROR then
    match streamon with
    | some _ => ERRORS.VIDEO_DEVICE_STREAMING_FAILED
    | none => ERRORS.NOERROR
  else r

/-- Effects observable from one `read_frame` call. -/
inductive FrameEffect
  | Dequeued (idx : Nat)
  | HandedToConsumer (idx : Nat)
  | EnqueueAttempted (idx : Nat)
deriving DecidableEq, Repr

/-- `read_frame` (uvccap.c lines 254-308).  `dq` is the DQBUF outcome
(the dequeued buffer index on success), `openRes` the outcome of
creating the destination file, `writeFailed` whether the write loop
broke early (lines 292-298 break on a failed write but assign no
error), and `enq` the QBUF outcome of the re-enqueue (`none` is
success).  DQBUF failure returns `MEMORY_DEQUEUEING_FAILED` with no
effects.  After a successful dequeue the mapped region is handed to the
file writer exactly when the file opened (EPERM on open is
`NOT_PERMITTED`, any other open failure `IO_FILE_NOT_CREATED`), and the
re-enqueue is attempted unconditionally as the last action before
returning; its failure overrides the result with
`MEMORY_QUEUEING_FAILED`. -/
def read_frame (dq : Except Errno Nat) (openRes : Except Errno Unit)
    (writeFailed : Bool) (enq : Option Errno) : ERRORS × List FrameEffect :=
  match dq with
  | Except.error _ => (ERRORS.MEMORY_DEQUEUEING_FAILED, [])
  | Except.ok idx =>
    let consumeResult : ERRORS :=
      match openRes with
      | Except.error e =>
        if e = Errno.EPERM then ERRORS.NOT_PERMITTED else ERRORS.IO_FILE_NOT_CREATED
      | Except.ok _ => ERRORS.NOERROR
    let handed : List FrameEffect :=
      match openRes with
      | Except.ok _ => [FrameEffect.HandedToConsumer idx]
      | Except.error _ => []
    let result : ERRORS :=
      match enq with
      | some _ => ERRORS.MEMORY_QUEUEING_FAILED
      | none => consumeResult
    (result, FrameEffect.Dequeued idx :: handed ++ [FrameEffect.EnqueueAttempted idx])

/-- One iteration's observation in the `do_capture` loop (uvccap.c lines
220-247): `select` returned negative with some errno, or returned
without the descriptor ready (a timeout leaves the FD_ISSET check
false), or the descriptor was ready and `read_frame` returned `rf`. -/
inductive PollEvent
  | selErr (e : Errno)
  | notReady
  | ready (rf : ERRORS)
deriving DecidableEq, Repr

/-- Outcome of one loop iteration: continue with a frame counter, or
leave the loop with a result.  A non-timeout `select` error breaks with
the result variable untouched — at that point it still holds `NOERROR`,
since only `read_frame` assigns it inside the loop and a failing
`read_frame` breaks at once. -/
inductive StepOut
  | next (i : Nat)
  | halt (r : ERRORS)
deriving DecidableEq, Repr

/-- One iteration of the capture loop at frame counter `i` (uvccap.c
lines 220-247): a `select` error continues on ETIMEDOUT and breaks
otherwise; a not-ready poll continues; a ready descriptor runs
`read_frame`, whose success is the only step that advances `i` and
whose failure breaks with its result. -/
def capture_step (i : Nat) (e : PollEvent) : StepOut :=
  match e with
  | PollEvent.selErr err =>
    if err = Errno.ETIMEDOUT then StepOut.next i else StepOut.halt ERRORS.NOERROR
  | PollEvent.notReady => StepOut.next i
  | PollEvent.ready rf =>
    if rf = ERRORS.NOERROR then StepOut.next (i + 1) else StepOut.halt rf

/-- The capture loop of `do_capture` driven by a trace of poll events:
it ends with `(NOERROR, i)` when the frame counter reaches `count`,
with `(r, i)` when an iteration halts, and is undetermined (`none`)
when the trace runs out first — the C loop would simply keep polling.
There is no bound of any kind on how many non-advancing events the loop
consumes. -/
def capture_loop (count i : Nat) (evs : List PollEvent) : Option (ERRORS × Nat) :=
  if count ≤ i then some (ERRORS.NOERROR, i)
  else
    match evs with
    | [] => none
    | e :: rest =>
      match capture_step i e with
      | StepOut.next j => capture_loop count j rest
      | StepOut.halt r => some (r, i)

/- ------------------------------------------------------------------ -/
/- Theorems                                                            -/
/- ------------------------------------------------------------------ -/

/-- C9: every caller-supplied pixel-format index at or beyond the
supported-format table size (8) silently falls back to the configured
default four-byte code — the table entry at `DEF_PIXEL_FORMAT = 3`,
which is the YUYV code — instead of failing, and every index inside the
table yields the table entry at that index (which exists). -/
theorem c9_pixel_format_fallback :
    (∀ f : Int, (NUMBER_OF_SUPPORTED_PIXEL_FORMATS : Int) ≤ f →
      to_v4l2_pixel_format f = some V4L2_PIX_FMT_YUYV) ∧
    (∀ f : Int, 0 ≤ f → f < (NUMBER_OF_SUPPORTED_PIXEL_FORMATS : Int) →
      to_v4l2_pixel_format f = PIXEL_FORMATS[f.toNat]? ∧
      (PIXEL_FORMATS[f.toNat]?).isSome = true) ∧
    PIXEL_FORMATS[DEF_PIXEL_FORMAT]? = some V4L2_PIX_FMT_YUYV := by
  refine ⟨?_, ?_, rfl⟩
  · intro f hf
    unfold to_v4l2_pixel_format
    rw [if_pos hf]
    rfl
  · intro f h0 h8
    have hn : ¬ (NUMBER_OF_SUPPORTED_PIXEL_FORMATS : Int) ≤ f := not_le.mpr h8
    have h8n : f.toNat < 8 := by
      simp only [NUMBER_OF_SUPPORTED_PIXEL_FORMATS] at h8
      omega
    have hlen : f.toNat < PIXEL_FORMATS.length := by
      have h9 : PIXEL_FORMATS.length = 9 := rfl
      omega
    constructor
    · unfold to_v4l2_pixel_format listAt
      rw [if_neg hn, if_neg (not_lt.mpr h0)]
    · rw [List.getElem?_eq_getElem hlen]
      rfl

/-- C9 witness: index 9 (out of range) falls back to YUYV; index 2 (in
range) is looked up in the table and the lookup is populated. -/
theorem c9_pixel_format_fallback_witness :
    to_v4l2_pixel_format 9 = some V4L2_PIX_FMT_YUYV ∧
    to_v4l2_pixel_format 2 = PIXEL_FORMATS[(2 : Int).toNat]? ∧
    (PIXEL_FORMATS[(2 : Int).toNat]?).isSome = true :=
  ⟨c9_pixel_format_fallback.1 9 (by decide),
   (c9_pixel_format_fallback.2.1 2 (by decide) (by decide)).1,
   (c9_pixel_format_fallback.2.1 2 (by decide) (by decide)).2⟩

/-- C10: the pixel-format mapping guards only the upper bound — for
every negative format index the guarded embedding of the table access
`PIXEL_FORMATS[format]` yields no value (the C access reads out of the
bounds of the 9-element table), while argument parsing rejects only
indices at or above the table size, so it passes every negative index
through to the unguarded access. -/
theorem c10_negative_format_index :
    (∀ f : Int, f < 0 → to_v4l2_pixel_format f = none) ∧
    (∀ f : Int, f < 0 → parse_format_arg f = some f) ∧
    PIXEL_FORMATS.length = 9 := by
  refine ⟨?_, ?_, rfl⟩
  · intro f hf
    have hn : ¬ (NUMBER_OF_SUPPORTED_PIXEL_FORMATS : Int) ≤ f := by
      simp only [NUMBER_OF_SUPPORTED_PIXEL_FORMATS]
      omega
    unfold to_v4l2_pixel_format listAt
    rw [if_neg hn, if_pos hf]
  · intro f hf
    have hn : ¬ (NUMBER_OF_SUPPORTED_PIXEL_FORMATS : Int) ≤ f := by
      simp only [NUMBER_OF_SUPPORTED_PIXEL_FORMATS]
      omega
    unfold parse_format_arg
    rw [if_neg hn]

/-- C10 witness: index -1 is accepted by argument parsing yet the table
access for it is out of bounds. -/
theorem c10_negative_format_index_witness :
    to_v4l2_pixel_format (-1) = none ∧ parse_format_arg (-1) = some (-1) :=
  ⟨c10_negative_format_index.1 (-1) (by decide),
   c10_negative_format_index.2.1 (-1) (by decide)⟩

/-- A concrete opened session: live descriptor 3 and two mapped
buffers.  Because `close_video_device` takes the session through a
`const` pointer, a call leaves this value unchanged, so it is also the
exact session value a second close would receive. -/
def c1_open_dev : video_dev_t :=
  ⟨3, some [⟨addr_t.ptr 4096, 1024⟩, ⟨addr_t.ptr 8192, 1024⟩], 2⟩

/-- C1 counterexample: close is not idempotent.  `close_video_device`
cannot mark the session closed (its parameter is `const` and it never
writes `dev->fd`), so the session value after a first close of
`c1_open_dev` is `c1_open_dev` itself — and the second close then
unmaps both buffers again, frees the buffer array again and releases
descriptor 3 again, instead of being a no-op. -/
theorem c1_close_not_idempotent_counterexample :
    close_video_device (some c1_open_dev) =
      [Effect.Munmap 4096 1024, Effect.Munmap 8192 1024,
       Effect.FreeBuffers, Effect.CloseFd 3] ∧
    close_video_device (some c1_open_dev) ≠ [] := by
  constructor
  · rfl
  · intro h
    simp [close_video_device, c1_open_dev, unmap_scan] at h

/-- C1 amended: close is a no-op exactly on sessions that are marked
closed — a NULL session pointer or a session whose descriptor is
negative produces no unmap, no free and no descriptor release.  But
close never marks the session closed (the parameter is `const`), so a
repeated close of the same, unchanged opened session repeats every
teardown effect; idempotence holds only for never-opened or
descriptor-negative sessions. -/
theorem c1_close_noop_when_marked_closed :
    close_video_device none = [] ∧
    ∀ d : video_dev_t, d.fd < 0 → close_video_device (some d) = [] := by
  refine ⟨rfl, ?_⟩
  intro d hd
  simp [close_video_device, hd]

/-- C1 witness: a session with descriptor -1 (the value `main`
initialises and the open-failure paths restore) is closed without any
effect. -/
theorem c1_close_noop_witness :
    close_video_device (some ⟨-1, none, 0⟩) = [] :=
  c1_close_noop_when_marked_closed.2 ⟨-1, none, 0⟩ (by decide)

/-- A concrete buffer device: the kernel grants 2 buffers but already
the first per-buffer descriptor query fails with EINVAL. -/
def c2_dev : BufferDevice :=
  ⟨Except.ok 2, true, fun _ => Except.error Errno.EINVAL,
   fun i _ => addr_t.ptr ((i + 1) * 4096)⟩

/-- C2 counterexample: when the per-buffer query fails with EINVAL
before 2 buffers are mapped, allocation does NOT fail with
`InsufficientBuffers` — on `c2_dev` the query for index 0 fails with
EINVAL with zero buffers mapped, yet `init_buffer` returns `NOERROR`
with an empty pool.  The fewer-than-2 check of uvccap.c lines 545-548
applies only to the count granted by REQBUFS, before the loop. -/
theorem c2_einval_stop_counterexample :
    init_buffer c2_dev = (ERRORS.NOERROR, some [], 0) ∧
    (init_buffer c2_dev).1 ≠ ERRORS.INSUFFICIENT_MEMORY ∧
    live_mappings (init_buffer c2_dev).2.1 < 2 := by
  refine ⟨rfl, ?_, ?_⟩ <;> decide

/-- C2 amended: an EINVAL per-buffer query failure stops enumeration
early and allocation returns success with the partially built pool
regardless of how many buffers were mapped at that point — even zero;
there is no at-least-2 re-check after the loop (the
`InsufficientBuffers` check applies only to the REQBUFS grant).  Any
other per-buffer query failure is `BufferQueryFailed` and a mapping
failure is `MemoryMappingFailed`, each aborting the loop at the failing
index. -/
theorem c2_einval_stop_partial_pool :
    (∀ (dev : BufferDevice) (i rem : Nat) (acc : List video_buf_t),
      dev.querybuf i = Except.error Errno.EINVAL →
      ib_loop dev i (rem + 1) acc = (ERRORS.NOERROR, acc, i)) ∧
    (∀ (dev : BufferDevice) (g : Nat),
      dev.reqbufs = Except.ok g → 2 ≤ g → dev.malloc_ok = true →
      dev.querybuf 0 = Except.error Errno.EINVAL →
      init_buffer dev = (ERRORS.NOERROR, some [], 0)) ∧
    (∀ (dev : BufferDevice) (i rem : Nat) (acc : List video_buf_t) (e : Errno),
      dev.querybuf i = Except.error e → e ≠ Errno.EINVAL →
      ib_loop dev i (rem + 1) acc = (ERRORS.VIDEO_DEVICE_QUERY_BUFFER_FAILED, acc, i)) ∧
    (∀ (dev : BufferDevice) (i rem : Nat) (acc : List video_buf_t) (len : Nat),
      dev.querybuf i = Except.ok len → dev.mmap i len = addr_t.MAP_FAILED →
      ib_loop dev i (rem + 1) acc = (ERRORS.MEMORY_MAPPING_FAILED, acc, i)) := by
  refine ⟨?_, ?_, ?_, ?_⟩
  · intro dev i rem acc hq
    simp [ib_loop, hq]
  · intro dev g hr hg hm hq
    have h2 : ¬ g < 2 := not_lt.mpr hg
    obtain ⟨k, hk⟩ : ∃ k, g = k + 1 := ⟨g - 1, by omega⟩
    simp [init_buffer, hr, init_buffer_body, h2, hm, hk, ib_loop, hq]
    omega
  · intro dev i rem acc e hq he
    simp [ib_loop, hq, he]
  · intro dev i rem acc len hq hm
    simp [ib_loop, hq, hm]

/-- C2 witness: on `c2_dev` the EINVAL stop at index 0 yields success
with an empty pool; a device whose index-0 query fails with EIO yields
`BufferQueryFailed`, and one whose index-0 mapping fails yields
`MemoryMappingFailed`. -/
theorem c2_einval_stop_partial_pool_witness :
    ib_loop c2_dev 0 2 [] = (ERRORS.NOERROR, [], 0) ∧
    init_buffer c2_dev = (ERRORS.NOERROR, some [], 0) ∧
    ib_loop ⟨Except.ok 2, true, fun _ => Except.error Errno.EIO, fun i _ => addr_t.ptr (i + 1)⟩
      0 2 [] = (ERRORS.VIDEO_DEVICE_QUERY_BUFFER_FAILED, [], 0) ∧
    ib_loop ⟨Except.ok 2, true, fun _ => Except.ok 4096, fun _ _ => addr_t.MAP_FAILED⟩
      0 2 [] = (ERRORS.MEMORY_MAPPING_FAILED, [], 0) :=
  ⟨c2_einval_stop_partial_pool.1 c2_dev 0 1 [] rfl,
   c2_einval_stop_partial_pool.2.1 c2_dev 2 rfl (by decide) rfl rfl,
   c2_einval_stop_partial_pool.2.2.1 _ 0 1 [] Errno.EIO rfl (by decide),
   c2_einval_stop_partial_pool.2.2.2 _ 0 1 [] 4096 rfl rfl⟩

/-- C6: whenever the kernel grants fewer than 2 buffers, buffer-pool
setup fails with `InsufficientBuffers` (`INSUFFICIENT_MEMORY`), zero
mappings remain live, and — since `main` runs `do_capture`, the only
path to `start_capture` and its STREAMON, only on a `NOERROR` setup —
no stream-on is attempted. -/
theorem c6_insufficient_buffers :
    ∀ (dev : BufferDevice) (g : Nat),
      dev.reqbufs = Except.ok g → g < 2 →
      init_buffer dev = (ERRORS.INSUFFICIENT_MEMORY, none, 0) ∧
      live_mappings (init_buffer dev).2.1 = 0 ∧
      main_runs_capture (init_buffer dev).1 = false := by
  intro dev g hr hg
  have h : init_buffer dev = (ERRORS.INSUFFICIENT_MEMORY, none, 0) := by
    simp [init_buffer, hr, init_buffer_body, hg]
  refine ⟨h, ?_, ?_⟩ <;> rw [h] <;> rfl

/-- C6 witness: a device granting a single buffer makes setup fail with
`INSUFFICIENT_MEMORY`, leaves no live mapping and keeps the capture
phase (and hence STREAMON) unreached. -/
theorem c6_insufficient_buffers_witness :
    init_buffer ⟨Except.ok 1, true, fun _ => Except.ok 4096, fun i _ => addr_t.ptr (i + 1)⟩ =
      (ERRORS.INSUFFICIENT_MEMORY, none, 0) :=
  (c6_insufficient_buffers
    ⟨Except.ok 1, true, fun _ => Except.ok 4096, fun i _ => addr_t.ptr (i + 1)⟩
    1 rfl (by decide)).1

/-- A concrete device whose cropping-capabilities query fails with the
kernel's invalid-argument response, everything before it succeeding
(capture capability present) and pixel-format enumeration ending
normally at index 0. -/
def c3_dev : OpenDevice :=
  ⟨Except.ok 3, Except.ok 1, Except.error Errno.EINVAL,
   fun _ => Except.error Errno.EINVAL⟩

/-- The same device with a succeeding cropping-capabilities query. -/
def c3_dev_cropok : OpenDevice :=
  ⟨Except.ok 3, Except.ok 1, Except.ok (), fun _ => Except.error Errno.EINVAL⟩

/-- C3 counterexample: an EINVAL failure of the cropping-capabilities
query is NOT treated as "no cropping support".  On `c3_dev` the
negotiator fails with `VIDEO_DEVICE_NOCROPCAPS`
(`CroppingCapabilitiesUnavailable`) instead of continuing without
error, although the identical device with the query succeeding
completes with `NOERROR`. -/
theorem c3_cropcap_einval_counterexample :
    open_video_device c3_dev 1 = some ERRORS.VIDEO_DEVICE_NOCROPCAPS ∧
    open_video_device c3_dev 1 ≠ some ERRORS.NOERROR ∧
    open_video_device c3_dev_cropok 1 = some ERRORS.NOERROR := by
  refine ⟨rfl, ?_, rfl⟩
  decide

/-- C3 amended: every failure of the cropping-capabilities query —
whatever the errno, the kernel's invalid-argument response included —
makes the capability negotiator fail with
`CroppingCapabilitiesUnavailable` (`VIDEO_DEVICE_NOCROPCAPS`); uvccap.c
lines 352-355 never inspect the errno.  (The invalid-argument-as-
no-cropping tolerance lives at the later set-crop call of
`init_video_device`, not at this query.) -/
theorem c3_cropcap_failure_always_fatal :
    ∀ (d : OpenDevice) (fuel : Nat) (fd : Int) (caps : Nat) (e : Errno),
      d.open_res = Except.ok fd → d.querycap = Except.ok caps →
      caps &&& V4L2_CAP_VIDEO_CAPTURE ≠ 0 → d.cropcap = Except.error e →
      open_video_device d fuel = some ERRORS.VIDEO_DEVICE_NOCROPCAPS := by
  intro d fuel fd caps e ho hq hcap hc
  simp [open_video_device, ho, hq, hcap, hc]

/-- C3 witness: the amended rule applied to `c3_dev` with its EINVAL
cropping-capabilities failure. -/
theorem c3_cropcap_failure_always_fatal_witness :
    open_video_device c3_dev 1 = some ERRORS.VIDEO_DEVICE_NOCROPCAPS :=
  c3_cropcap_failure_always_fatal c3_dev 1 3 1 Errno.EINVAL rfl rfl (by decide) rfl

/-- A well-behaved buffer device for composing `init_video_device`
runs: 2 buffers granted, every descriptor query and mapping succeeds. -/
def c4_bd : BufferDevice :=
  ⟨Except.ok 2, true, fun _ => Except.ok 4096, fun i _ => addr_t.ptr ((i + 1) * 4096)⟩

/-- A format device that adjusts the request: S_CROP succeeds, S_FMT
writes 640x480 back into the struct whatever was asked, and G_FMT
reports 320x240. -/
def c4_fdev : FormatDevice :=
  ⟨Except.ok (),
   fun r => Except.ok ⟨640, 480, r.pixelformat, r.field⟩,
   Except.ok ⟨320, 240, V4L2_PIX_FMT_YUYV, 4⟩⟩

/-- C4 counterexample: the negotiated format is NOT what the
get-current-format re-read reports.  Requesting 641x481 with format
index 3 on `c4_fdev`, the set-format ioctl writes back 640x480 and the
get-current-format query — which succeeds — reports 320x240; yet
negotiation yields 640x480, the set-format writeback, not the re-read
value.  The G_FMT call at uvccap.c lines 501-505 fills a local struct
that is only printed; `dev->format` is never updated from it. -/
theorem c4_gfmt_discarded_counterexample :
    init_video_device ⟨641, 481, 3⟩ c4_fdev c4_bd =
      some (ERRORS.NOERROR, some ⟨640, 480, V4L2_PIX_FMT_YUYV, 4⟩) ∧
    c4_fdev.g_fmt = Except.ok ⟨320, 240, V4L2_PIX_FMT_YUYV, 4⟩ ∧
    (⟨640, 480, V4L2_PIX_FMT_YUYV, 4⟩ : v4l2_pix_format) ≠
      ⟨320, 240, V4L2_PIX_FMT_YUYV, 4⟩ :=
  ⟨rfl, rfl, by decide⟩

/-- C4 amended: the negotiated format is the value the set-format ioctl
writes back into the passed struct (the kernel's adjustment of the
request), or the raw request itself when set-format fails with an
errno the code tolerates; the get-current-format call issued after
applying is used only for diagnostic printing and its result is
discarded whether it succeeds or fails — negotiation is independent of
it. -/
theorem c4_negotiated_is_sfmt_writeback :
    (∀ (args : app_args_t) (c : Except Errno Unit)
       (s : v4l2_pix_format → Except Errno v4l2_pix_format)
       (g g' : Except Errno v4l2_pix_format) (bd : BufferDevice),
      init_video_device args ⟨c, s, g⟩ bd = init_video_device args ⟨c, s, g'⟩ bd) ∧
    (∀ (args : app_args_t) (fdev : FormatDevice) (bd : BufferDevice)
       (code : Nat) (A : v4l2_pix_format),
      to_v4l2_pixel_format args.pixel_format = some code →
      fdev.s_crop = Except.ok () →
      fdev.s_fmt (request_format args code) = Except.ok A →
      init_video_device args fdev bd = some ((init_buffer bd).1, some A)) ∧
    (∀ (args : app_args_t) (fdev : FormatDevice) (bd : BufferDevice)
       (code : Nat) (e : Errno),
      to_v4l2_pixel_format args.pixel_format = some code →
      fdev.s_crop = Except.ok () →
      fdev.s_fmt (request_format args code) = Except.error e →
      e ≠ Errno.EBUSY → e ≠ Errno.EINVAL →
      init_video_device args fdev bd =
        some ((init_buffer bd).1, some (request_format args code))) := by
  refine ⟨?_, ?_, ?_⟩
  · intro args c s g g' bd
    rfl
  · intro args fdev bd code A hcode hcrop hfmt
    simp [init_video_device, hcode, hcrop, hfmt, after_set_format]
  · intro args fdev bd code e hcode hcrop hfmt hb hi
    simp [init_video_device, hcode, hcrop, hfmt, hb, hi, after_set_format]

/-- C4 witness: on `c4_fdev` the request 641x481 yields the set-format
writeback 640x480 as the negotiated format. -/
theorem c4_negotiated_is_sfmt_writeback_witness :
    init_video_device ⟨641, 481, 3⟩ c4_fdev c4_bd =
      some (ERRORS.NOERROR, some ⟨640, 480, V4L2_PIX_FMT_YUYV, 4⟩) := by
  have h := c4_negotiated_is_sfmt_writeback.2.1 ⟨641, 481, 3⟩ c4_fdev c4_bd
    V4L2_PIX_FMT_YUYV ⟨640, 480, V4L2_PIX_FMT_YUYV, 4⟩ rfl rfl rfl
  rw [h]
  rfl

/-- A transient (ENOMEM or EAGAIN) attempt moves the retry loop to the
next attempt. -/
theorem qbuf_attempts_transient_step (q : Nat → Option Errno) (r rem : Nat)
    (h : q r = some Errno.ENOMEM ∨ q r = some Errno.EAGAIN) :
    qbuf_attempts q r (rem + 1) = qbuf_attempts q (r + 1) rem := by
  rcases h with h | h <;> simp [qbuf_attempts, h]

/-- Three transient attempts followed by a success on the fourth keep
the per-buffer enqueue within the 5-attempt bound and succeed. -/
theorem qbuf_transient3_ok (q : Nat → Option Errno)
    (h : ∀ r, r < 3 → q r = some Errno.ENOMEM ∨ q r = some Errno.EAGAIN)
    (h3 : q 3 = none) : qbuf_one_buffer q = ERRORS.NOERROR := by
  have e0 := qbuf_attempts_transient_step q 0 4 (h 0 (by omega))
  have e1 := qbuf_attempts_transient_step q 1 3 (h 1 (by omega))
  have e2 := qbuf_attempts_transient_step q 2 2 (h 2 (by omega))
  have e3 : qbuf_attempts q 3 2 = (ERRORS.NOERROR, 3) := by
    simp [qbuf_attempts, h3]
  simp only [qbuf_one_buffer, e0, e1, e2, e3]
  decide

/-- Six (hence in particular the five attempted) consecutive transient
failures exhaust the retry bound: the per-buffer enqueue fails with
`MEMORY_QUEUEING_FAILED`. -/
theorem qbuf_transient6_fail (q : Nat → Option Errno)
    (h : ∀ r, r < 6 → q r = some Errno.ENOMEM ∨ q r = some Errno.EAGAIN) :
    qbuf_one_buffer q = ERRORS.MEMORY_QUEUEING_FAILED := by
  have e0 := qbuf_attempts_transient_step q 0 4 (h 0 (by omega))
  have e1 := qbuf_attempts_transient_step q 1 3 (h 1 (by omega))
  have e2 := qbuf_attempts_transient_step q 2 2 (h 2 (by omega))
  have e3 := qbuf_attempts_transient_step q 3 1 (h 3 (by omega))
  have e4 := qbuf_attempts_transient_step q 4 0 (h 4 (by omega))
  have e5 : qbuf_attempts q (4 + 1) 0 = (ERRORS.NOERROR, 5) := rfl
  simp only [qbuf_one_buffer, e0, e1, e2, e3, e4, e5]
  decide

/-- When every buffer's enqueue succeeds, the whole enqueue loop
returns `NOERROR`. -/
theorem start_enqueue_loop_all_ok (q : Nat → Nat → Option Errno)
    (h : ∀ i, qbuf_one_buffer (q i) = ERRORS.NOERROR) :
    ∀ rem i, start_enqueue_loop q i rem = ERRORS.NOERROR := by
  intro rem
  induction rem with
  | zero => intro i; rfl
  | succ n ih => intro i; simp [start_enqueue_loop, h i, ih]

/-- C5: the per-buffer enqueue retry policy of capture start.  A
transient ENOMEM or EAGAIN response is retried (up to 5 attempts for
that buffer) and exceeding the bound is `BufferQueueingFailed`
(`MEMORY_QUEUEING_FAILED`); an EINVAL response fails with
`BufferQueueingFailed` immediately and an EIO response with `IoError`
(`IO_ERROR`) immediately, whatever the outcomes of later attempts would
have been (no retry).  In particular 3 transient failures followed by a
success on the 4th attempt let start succeed, while 6 consecutive
transient failures make start fail with `BufferQueueingFailed`. -/
theorem c5_enqueue_retry_policy :
    (∀ q : Nat → Option Errno,
      (∀ r, r < 3 → q r = some Errno.ENOMEM ∨ q r = some Errno.EAGAIN) →
      q 3 = none → qbuf_one_buffer q = ERRORS.NOERROR) ∧
    (∀ q : Nat → Option Errno,
      (∀ r, r < 6 → q r = some Errno.ENOMEM ∨ q r = some Errno.EAGAIN) →
      qbuf_one_buffer q = ERRORS.MEMORY_QUEUEING_FAILED) ∧
    (∀ q : Nat → Option Errno, q 0 = some Errno.EINVAL →
      qbuf_one_buffer q = ERRORS.MEMORY_QUEUEING_FAILED) ∧
    (∀ q : Nat → Option Errno, q 0 = some Errno.EIO →
      qbuf_one_buffer q = ERRORS.IO_ERROR) ∧
    (∀ (count : Nat) (q : Nat → Nat → Option Errno),
      (∀ i r, r < 3 → q i r = some Errno.ENOMEM ∨ q i r = some Errno.EAGAIN) →
      (∀ i, q i 3 = none) →
      start_capture count q none = ERRORS.NOERROR) ∧
    (∀ (count : Nat) (q : Nat → Nat → Option Errno) (so : Option Errno),
      0 < count →
      (∀ r, r < 6 → q 0 r = some Errno.ENOMEM ∨ q 0 r = some Errno.EAGAIN) →
      start_capture count q so = ERRORS.MEMORY_QUEUEING_FAILED) := by
  refine ⟨qbuf_transient3_ok, qbuf_transient6_fail, ?_, ?_, ?_, ?_⟩
  · intro q h
    simp [qbuf_one_buffer, qbuf_attempts, h]
  · intro q h
    simp [qbuf_one_buffer, qbuf_attempts, h]
  · intro count q h h3
    have hall : ∀ i, qbuf_one_buffer (q i) = ERRORS.NOERROR :=
      fun i => qbuf_transient3_ok (q i) (h i) (h3 i)
    simp [start_capture, start_enqueue_loop_all_ok q hall count 0]
  · intro count q so hc h
    obtain ⟨rem, hrem⟩ : ∃ rem, count = rem + 1 := ⟨count - 1, by omega⟩
    have hq0 : qbuf_one_buffer (q 0) = ERRORS.MEMORY_QUEUEING_FAILED :=
      qbuf_transient6_fail (q 0) h
    subst hrem
    simp [start_capture, start_enqueue_loop, hq0]

/-- C5 witness: with 2 buffers whose enqueue fails transiently 3 times
and succeeds on the 4th attempt, start succeeds; with a first buffer
whose enqueue fails transiently on every attempt, start fails with
`MEMORY_QUEUEING_FAILED`; an EINVAL first response fails the buffer at
once with `MEMORY_QUEUEING_FAILED` and an EIO first response with
`IO_ERROR`. -/
theorem c5_enqueue_retry_policy_witness :
    start_capture 2 (fun _ r => if r < 3 then some Errno.ENOMEM else none) none =
      ERRORS.NOERROR ∧
    start_capture 2 (fun _ r => if r < 6 then some Errno.EAGAIN else none) none =
      ERRORS.MEMORY_QUEUEING_FAILED ∧
    qbuf_one_buffer (fun _ => some Errno.EINVAL) = ERRORS.MEMORY_QUEUEING_FAILED ∧
    qbuf_one_buffer (fun _ => some Errno.EIO) = ERRORS.IO_ERROR :=
  ⟨c5_enqueue_retry_policy.2.2.2.2.1 2 (fun _ r => if r < 3 then some Errno.ENOMEM else none)
     (by intro i r hr; left; simp [hr]) (by intro i; simp),
   c5_enqueue_retry_policy.2.2.2.2.2 2 (fun _ r => if r < 6 then some Errno.EAGAIN else none)
     none (by decide) (by intro r hr; right; simp [hr]),
   c5_enqueue_retry_policy.2.2.1 (fun _ => some Errno.EINVAL) rfl,
   c5_enqueue_retry_policy.2.2.2.1 (fun _ => some Errno.EIO) rfl⟩

/-- A not-ready poll (the timeout path: `select` returns without the
descriptor set) leaves the capture loop exactly where it was. -/
theorem capture_loop_notReady (count i : Nat) (rest : List PollEvent) :
    capture_loop count i (PollEvent.notReady :: rest) = capture_loop count i rest := by
  by_cases hc : count ≤ i
  · rw [capture_loop.eq_def, if_pos hc, capture_loop.eq_def, if_pos hc]
  · rw [capture_loop.eq_def, if_neg hc]
    rfl

/-- Any number of consecutive not-ready polls is absorbed by the
capture loop without consuming anything: there is no bound on
timeouts. -/
theorem capture_loop_timeouts_ignored (count i k : Nat) (rest : List PollEvent) :
    capture_loop count i (List.replicate k PollEvent.notReady ++ rest) =
      capture_loop count i rest := by
  induction k with
  | zero => rfl
  | succ n ih => rw [List.replicate_succ, List.cons_append, capture_loop_notReady]; exact ih

/-- C7: a readiness-wait timeout never decrements the remaining-frames
counter.  A not-ready poll (and likewise the ETIMEDOUT `select`-error
path) re-polls at the same frame counter; every continuing step keeps
the counter monotone, and the only step that advances it is a ready
descriptor whose `read_frame` returned `NOERROR` — and `read_frame`
returns `NOERROR` only when its dequeue succeeded.  Any number of
consecutive timeouts is absorbed with no upper bound: the loop outcome
over `k` leading timeouts is the outcome without them, for every `k`. -/
theorem c7_timeout_never_consumes_frame :
    (∀ i, capture_step i PollEvent.notReady = StepOut.next i) ∧
    (∀ i, capture_step i (PollEvent.selErr Errno.ETIMEDOUT) = StepOut.next i) ∧
    (∀ (i : Nat) (e : PollEvent) (j : Nat), capture_step i e = StepOut.next j → i ≤ j) ∧
    (∀ (i : Nat) (e : PollEvent) (j : Nat), capture_step i e = StepOut.next j → i < j →
      e = PollEvent.ready ERRORS.NOERROR ∧ j = i + 1) ∧
    (∀ (count i k : Nat) (rest : List PollEvent),
      capture_loop count i (List.replicate k PollEvent.notReady ++ rest) =
        capture_loop count i rest) ∧
    (∀ (dq : Except Errno Nat) (o : Except Errno Unit) (w : Bool) (enq : Option Errno),
      (read_frame dq o w enq).1 = ERRORS.NOERROR → ∃ idx, dq = Except.ok idx) := by
  refine ⟨fun i => rfl, fun i => rfl, ?_, ?_, capture_loop_timeouts_ignored, ?_⟩
  · intro i e j h
    cases e with
    | selErr err =>
      by_cases herr : err = Errno.ETIMEDOUT <;> simp [capture_step, herr] at h <;> omega
    | notReady =>
      simp [capture_step] at h
      omega
    | ready rf =>
      by_cases hrf : rf = ERRORS.NOERROR <;> simp [capture_step, hrf] at h <;> omega
  · intro i e j h hij
    cases e with
    | selErr err =>
      by_cases herr : err = Errno.ETIMEDOUT <;> simp [capture_step, herr] at h <;> omega
    | notReady =>
      simp [capture_step] at h
      omega
    | ready rf =>
      by_cases hrf : rf = ERRORS.NOERROR
      · subst hrf
        simp [capture_step] at h
        exact ⟨rfl, h.symm⟩
      · simp [capture_step, hrf] at h
  · intro dq o w enq h
    cases dq with
    | error e => simp [read_frame] at h
    | ok idx => exact ⟨idx, rfl⟩

/-- C7 witness: the one advancing step is a ready poll with a
successful `read_frame` (counter 0 to 1), and a concrete successful
`read_frame` indeed came from a successful dequeue. -/
theorem c7_timeout_never_consumes_frame_witness :
    (PollEvent.ready ERRORS.NOERROR = PollEvent.ready ERRORS.NOERROR ∧ 1 = 0 + 1) ∧
    (∃ idx, (Except.ok 0 : Except Errno Nat) = Except.ok idx) :=
  ⟨c7_timeout_never_consumes_frame.2.2.2.1 0 (PollEvent.ready ERRORS.NOERROR) 1
     (by decide) (by decide),
   c7_timeout_never_consumes_frame.2.2.2.2.2 (Except.ok 0) (Except.ok ()) false none rfl⟩

/-- C8: after a successful dequeue of buffer `idx`, the re-enqueue of
that same buffer is attempted as the last action before `read_frame`
returns, whatever happened in between: the result and effects are
independent of whether the write of the region failed, the enqueue is
attempted also when the destination file could not even be opened, the
dequeue effect precedes it, the region is handed to the consumer
whenever the file opened, and a failing re-enqueue ioctl turns the
result into `BufferQueueingFailed` (`MEMORY_QUEUEING_FAILED`). -/
theorem c8_reenqueue_unconditional :
    (∀ (idx : Nat) (o : Except Errno Unit) (w w' : Bool) (enq : Option Errno),
      read_frame (Except.ok idx) o w enq = read_frame (Except.ok idx) o w' enq) ∧
    (∀ (idx : Nat) (o : Except Errno Unit) (w : Bool) (enq : Option Errno),
      ∃ pre, (read_frame (Except.ok idx) o w enq).2 =
        pre ++ [FrameEffect.EnqueueAttempted idx]) ∧
    (∀ (idx : Nat) (o : Except Errno Unit) (w : Bool) (enq : Option Errno),
      FrameEffect.Dequeued idx ∈ (read_frame (Except.ok idx) o w enq).2) ∧
    (∀ (idx : Nat) (u : Unit) (w : Bool) (enq : Option Errno),
      FrameEffect.HandedToConsumer idx ∈
        (read_frame (Except.ok idx) (Except.ok u) w enq).2) ∧
    (∀ (idx : Nat) (o : Except Errno Unit) (w : Bool) (e : Errno),
      (read_frame (Except.ok idx) o w (some e)).1 = ERRORS.MEMORY_QUEUEING_FAILED) := by
  refine ⟨fun idx o w w' enq => rfl, ?_, ?_, ?_, ?_⟩
  · intro idx o w enq
    cases o with
    | ok u => exact ⟨[FrameEffect.Dequeued idx, FrameEffect.HandedToConsumer idx], rfl⟩
    | error e => exact ⟨[FrameEffect.Dequeued idx], rfl⟩
  · intro idx o w enq
    cases o <;> simp [read_frame]
  · intro idx u w enq
    simp [read_frame]
  · intro idx o w e
    cases o <;> simp [read_frame]

end UVCCap
